import Mathlib

/-!
Verification of the vmchecker submission intake and dispatch pipeline.

Shallow embedding of src/vmchecker/submit.py and src/bin/queue_manager.py.
Pure data is modelled directly; filesystem and subprocess effects are
modelled by explicit state records and step traces; Python exceptions are
modelled by an error type threaded through results.  Timestamps are
modelled as Int seconds (the source compares time.struct_time and
datetime values, both totally ordered at second granularity).
-/

namespace Vmchecker

/-- Payload of the messages attached to the single rejection exception
class in submit.py: the admission-window message carries the allowed
interval (active_start, active_stop); the rate-limit message carries the
required wait interval (the assignment timedelta). -/
inductive SubmitMsg where
  | windowMsg (activeStart activeStop : Int)
  | rateMsg (minInterval : Int)
deriving DecidableEq, Repr

/-- Python exceptions that can cross the functions modelled here.
submitedTooSoonError models the class SubmitedTooSoonError of submit.py
(the only exception class submit.py itself defines and raises);
rejectedArchive models the rejection raised by ziputil for an archive
entry with an absolute path or a parent-directory traversal segment
(the spec names it UnsafeArchiveRejected); ioError models an ordinary
I/O failure; calledProcessError models subprocess.check_call failing. -/
inductive PyError where
  | submitedTooSoonError (msg : SubmitMsg)
  | rejectedArchive
  | ioError
  | calledProcessError
deriving DecidableEq, Repr

/-- One entry of an uploaded zip archive: whether its path is absolute
and the list of its path segments. -/
structure ZipEntry where
  absolute : Bool
  segments : List String
deriving DecidableEq, Repr

/-- Modelled from the spec: an archive entry is forbidden when its path
is absolute or contains a parent-directory traversal segment. -/
def entryForbidden (e : ZipEntry) : Bool :=
  e.absolute || e.segments.contains ".."

/-- Modelled from the spec: ziputil.unzip_safely is not under src/ (only
its caller submission_backup is).  Per the spec it expands the archive
into the destination, rejecting archives that contain an entry with an
absolute path or a parent-directory traversal segment, with no partial
expansion (the offending submission is not expanded at all).  The
ioFails flag injects an ordinary I/O failure of the expansion itself. -/
def unzip_safely (entries : List ZipEntry) (ioFails : Bool) :
    Except PyError (List ZipEntry) :=
  if entries.any entryForbidden then Except.error PyError.rejectedArchive
  else if ioFails then Except.error PyError.ioError
  else Except.ok entries

/-- A ConfigParser.RawConfigParser value, as written by submission_config:
a list of (section, option, value) triples in insertion order. -/
abbrev SbConfig := List (String × String × String)

/-- Embedding of submission_config (submit.py): builds the configuration
describing the current submission, section Assignment with options User,
Assignment, UploadTime, CourseID, then the three transport-destination
options. -/
def submission_config (user assignment course_id upload_time
    storer_result_dir storer_username storer_hostname : String) : SbConfig :=
  [("Assignment", "User", user),
   ("Assignment", "Assignment", assignment),
   ("Assignment", "UploadTime", upload_time),
   ("Assignment", "CourseID", course_id),
   ("Assignment", "ResultsDest", storer_result_dir),
   ("Assignment", "RemoteUsername", storer_username),
   ("Assignment", "RemoteHostname", storer_hostname)]

/-- Reading one option back from a written configuration (the decode
direction of RawConfigParser). -/
def cfg_get (cfg : SbConfig) (sec opt : String) : Option String :=
  (cfg.find? (fun e => e.1 == sec && e.2.1 == opt)).map (fun e => e.2.2)

/-- One backup directory (the layout documented in submission_backup):
whether the directory itself exists, the raw copied archive
(archive.zip), the written descriptor (submission-config), and the
expanded contents (archive/). -/
structure BackupDir where
  dirMade : Bool
  archiveZip : Option (List ZipEntry)
  submissionConfig : Option SbConfig
  expanded : Option (List ZipEntry)
deriving DecidableEq, Repr

/-- The fresh state of a backup directory that does not exist yet. -/
def freshDir : BackupDir :=
  { dirMade := false, archiveZip := none, submissionConfig := none, expanded := none }

/-- Observable effects performed by the intake pipeline, in order. -/
inductive Step where
  | mkdirs
  | copyArchive
  | writeConfig
  | expandArchive
  | rmtreeCanonical
  | gitAdd (code : Int)
  | gitCommit (code : Int)
  | createBundle
  | sshBundle
deriving DecidableEq, Repr

/-- Result of submission_backup: the final directory state, the trace of
effects performed (in order), and the exception, if one was raised. -/
structure SBResult where
  dir : BackupDir
  steps : List Step
  error : Option PyError
deriving DecidableEq, Repr

/-- Embedding of submission_backup (submit.py).  In source order:
if the directory does not exist, os.makedirs creates it; then
shutil.copyfile copies the unmodified archive to archive.zip; then the
descriptor is written to submission-config; then ziputil.unzip_safely
expands the archive (this is the step that can raise: the rejection for
forbidden entries, or an injected expansion I/O failure). -/
def submission_backup (back_dir : BackupDir) (arch : List ZipEntry)
    (sbcfg : SbConfig) (ioFails : Bool) : SBResult :=
  let made := if back_dir.dirMade then (back_dir, ([] : List Step))
              else ({ back_dir with dirMade := true }, [Step.mkdirs])
  let d1 := { made.1 with archiveZip := some arch }
  let d2 := { d1 with submissionConfig := some sbcfg }
  let s2 := made.2 ++ [Step.copyArchive, Step.writeConfig]
  match unzip_safely arch ioFails with
  | Except.error e => { dir := d2, steps := s2, error := some e }
  | Except.ok files =>
      { dir := { d2 with expanded := some files },
        steps := s2 ++ [Step.expandArchive], error := none }

/-- Embedding of submission_git_commit (submit.py): two subprocess.Popen
calls whose wait() return codes are discarded; no exception is raised on
a nonzero exit status, so a failed git add or git commit is silent. -/
def submission_git_commit (addCode commitCode : Int) : List Step :=
  [Step.gitAdd addCode, Step.gitCommit commitCode]

/-- Course configuration values resolved by submit.py through
config.CourseConfig / paths.VmcheckerPaths (these modules are not under
src/; submit.py only reads these already-resolved strings from them). -/
structure CourseEnv where
  resultsDest : String
  remoteUsername : String
  remoteHostname : String
  buildScript : String
  runScript : String
  archivePath : String
  testsPath : String
  sbcfgPath : String
  courseCfgPath : String
deriving DecidableEq, Repr

/-- Environment outcomes outside the control of submit.py: injected expansion
failures for the historical and canonical backup, whether the canonical
destination already exists, exit codes returned by the two git
subprocesses, and failures of bundle assembly and of the ssh transfer. -/
structure World where
  histExpandFails : Bool
  canonExpandFails : Bool
  canonExisted : Bool
  gitAddCode : Int
  gitCommitCode : Int
  createZipFails : Bool
  sshFails : Bool
deriving DecidableEq, Repr

/-- Result of save_submission_in_storer: the historical backup written,
the canonical backup (when reached), the trace of effects, and the
exception, if one propagated. -/
structure StoreResult where
  historical : BackupDir
  canonical : Option BackupDir
  steps : List Step
  error : Option PyError
deriving DecidableEq, Repr

/-- Embedding of save_submission_in_storer (submit.py).  Builds the
descriptor with submission_config; writes a historical backup into a
fresh mkdtemp directory; then, under the assignment lock, removes the
canonical directory if it exists, writes the canonical backup, and runs
submission_git_commit on the expanded contents.  An exception during
either backup propagates immediately, so the git commit is not reached;
a nonzero git exit code is discarded and raises nothing. -/
def save_submission_in_storer (arch : List ZipEntry)
    (user assignment course_id upload_time : String)
    (env : CourseEnv) (w : World) : StoreResult :=
  let sbcfg := submission_config user assignment course_id upload_time
                 env.resultsDest env.remoteUsername env.remoteHostname
  let r1 := submission_backup freshDir arch sbcfg w.histExpandFails
  match r1.error with
  | some e => { historical := r1.dir, canonical := none,
                steps := r1.steps, error := some e }
  | none =>
      let s2 := r1.steps ++ (if w.canonExisted then [Step.rmtreeCanonical] else [])
      let r2 := submission_backup freshDir arch sbcfg w.canonExpandFails
      match r2.error with
      | some e => { historical := r1.dir, canonical := some r2.dir,
                    steps := s2 ++ r2.steps, error := some e }
      | none =>
          { historical := r1.dir, canonical := some r2.dir,
            steps := s2 ++ r2.steps
                     ++ submission_git_commit w.gitAddCode w.gitCommitCode,
            error := none }

/-- The canonical submission record as read by submitted_too_soon:
whether Submissions.submission_exists holds for (assignment, user), and
what Submissions.get_upload_time returns (these live in the submissions
module, read here through their results). -/
structure SubmissionsDb where
  found : Bool
  uploadTime : Option Int
deriving DecidableEq, Repr

/-- Embedding of submitted_too_soon (submit.py): returns false when no
submission exists, or when its upload time cannot be read; otherwise
remaining = upload_time + min_interval - now, returning true iff
remaining is positive. -/
def submitted_too_soon (db : SubmissionsDb) (minInterval now : Int) : Bool :=
  if !db.found then false
  else
    match db.uploadTime with
    | none => false
    | some upload_time =>
        let remaining := upload_time + minInterval - now
        decide (remaining > 0)

/-- Result of create_testing_bundle: the entry names of the produced
zip (empty when assembly failed), whether mkstemp created the bundle
file on disk, whether any cleanup removed that file, and the exception,
if one propagated. -/
structure BundleResult where
  entries : List String
  fileCreated : Bool
  fileRemoved : Bool
  error : Option PyError
deriving DecidableEq, Repr

/-- Embedding of create_testing_bundle (submit.py).  rel_file_list is
the literal list built in the source (the files_to_include line is
commented out there, so nothing else is added); tempfileutil.mkstemp
creates the bundle file on disk; ziputil.create_zip fills it; the
except branch only logs and re-raises: no code path removes the file
mkstemp created, so on failure it stays on disk. -/
def create_testing_bundle (env : CourseEnv) (createZipFails : Bool) :
    BundleResult :=
  let rel_file_list :=
    [("build.sh", env.buildScript), ("run.sh", env.runScript)]
    ++ [("archive.zip", env.archivePath), ("tests.zip", env.testsPath),
        ("submission-config", env.sbcfgPath), ("course-config", env.courseCfgPath)]
  if createZipFails then
    { entries := [], fileCreated := true, fileRemoved := false,
      error := some PyError.ioError }
  else
    { entries := rel_file_list.map Prod.fst, fileCreated := true,
      fileRemoved := false, error := none }

/-- Embedding of ssh_bundle (submit.py): transfers the bundle to the
tester queue; any connection, authentication or write failure
propagates as an exception. -/
def ssh_bundle (sshFails : Bool) : Option PyError :=
  if sshFails then some PyError.ioError else none

/-- Embedding of queue_for_testing (submit.py): create_testing_bundle
then ssh_bundle; an exception from either propagates. -/
def queue_for_testing (env : CourseEnv) (w : World) :
    List Step × Option PyError :=
  let b := create_testing_bundle env w.createZipFails
  match b.error with
  | some e => ([Step.createBundle], some e)
  | none =>
      match ssh_bundle w.sshFails with
      | some e => ([Step.createBundle, Step.sshBundle], some e)
      | none => ([Step.createBundle, Step.sshBundle], none)

/-- Result of submit: the trace of effects performed and the exception,
if one propagated to the caller. -/
structure SubmitResult where
  steps : List Step
  error : Option PyError
deriving DecidableEq, Repr

/-- Embedding of submit (submit.py).  A forced upload time forces
skip_time_check and replaces the current system time.  The admission
window check rejects iff upload_time < active_start or
upload_time > active_stop, raising SubmitedTooSoonError with the
window message; then, unless skipped, the rate-limit check raises
SubmitedTooSoonError with the wait-interval message; then
save_submission_in_storer, then queue_for_testing. -/
def submit (arch : List ZipEntry) (assignment user course_id : String)
    (skip_time_check : Bool) (forced_upload_time : Option Int)
    (sysTime : Int) (active_start active_stop : Int)
    (db : SubmissionsDb) (min_interval : Int)
    (env : CourseEnv) (w : World) : SubmitResult :=
  let eff := match forced_upload_time with
    | some t => (true, t)
    | none => (skip_time_check, sysTime)
  let upload_time := eff.2
  if upload_time < active_start || upload_time > active_stop then
    { steps := [],
      error := some (PyError.submitedTooSoonError
                       (SubmitMsg.windowMsg active_start active_stop)) }
  else if !eff.1 && submitted_too_soon db min_interval sysTime then
    { steps := [],
      error := some (PyError.submitedTooSoonError
                       (SubmitMsg.rateMsg min_interval)) }
  else
    let st := save_submission_in_storer arch user assignment course_id
                (toString upload_time) env w
    match st.error with
    | some e => { steps := st.steps, error := some e }
    | none =>
        let q := queue_for_testing env w
        { steps := st.steps ++ q.1, error := q.2 }

/-- Result of the queue watcher processing one job: whether mkdtemp
created the workspace, whether the bundle was extracted into it,
whether any external commander was invoked, whether the workspace was
removed, and the exception, if one propagated. -/
structure JobResult where
  workspaceCreated : Bool
  extracted : Bool
  commanderInvoked : Bool
  workspaceRemoved : Bool
  error : Option PyError
deriving DecidableEq, Repr

/-- Embedding of _process_job (queue_manager.py), the handler run for
each IN_CLOSE_WRITE event: tempfile.mkdtemp creates the workspace, then
subprocess.check_call runs unzip into it (raising CalledProcessError on
a nonzero exit), then shutil.rmtree removes the workspace.  There is no
try/finally around these calls, and no line of the function invokes any
commander or callback. -/
def process_job (unzipFails : Bool) : JobResult :=
  if unzipFails then
    { workspaceCreated := true, extracted := false, commanderInvoked := false,
      workspaceRemoved := false, error := some PyError.calledProcessError }
  else
    { workspaceCreated := true, extracted := true, commanderInvoked := false,
      workspaceRemoved := true, error := none }

/-! Helper lemmas shared by the claim theorems. -/

/-- A fixed course environment used by concrete evaluations. -/
def env0 : CourseEnv :=
  { resultsDest := "repo/so/a1/u1/results", remoteUsername := "storer",
    remoteHostname := "storer-host", buildScript := "so/build.sh",
    runScript := "so/run.sh", archivePath := "repo/so/a1/u1/archive.zip",
    testsPath := "tests/a1.zip", sbcfgPath := "repo/so/a1/u1/submission-config",
    courseCfgPath := "so/config" }

/-- A world in which no injected failure occurs and git succeeds. -/
def okWorld : World :=
  { histExpandFails := false, canonExpandFails := false, canonExisted := false,
    gitAddCode := 0, gitCommitCode := 0, createZipFails := false, sshFails := false }

lemma submission_backup_dir_fields (d : BackupDir) (arch : List ZipEntry)
    (cfg : SbConfig) (io : Bool) :
    (submission_backup d arch cfg io).dir.archiveZip = some arch
    ∧ (submission_backup d arch cfg io).dir.submissionConfig = some cfg := by
  unfold submission_backup
  cases h : unzip_safely arch io <;> cases hb : d.dirMade <;> simp [hb]

lemma submission_backup_error_eq (d : BackupDir) (arch : List ZipEntry)
    (cfg : SbConfig) (io : Bool) :
    (submission_backup d arch cfg io).error
    = (if arch.any entryForbidden then some PyError.rejectedArchive
       else if io then some PyError.ioError else none) := by
  unfold submission_backup unzip_safely
  cases h : arch.any entryForbidden <;> cases h2 : io <;> simp [h, h2]

lemma submission_backup_steps_eq (d : BackupDir) (arch : List ZipEntry)
    (cfg : SbConfig) (io : Bool) :
    (submission_backup d arch cfg io).steps
    = (if d.dirMade then [] else [Step.mkdirs])
      ++ [Step.copyArchive, Step.writeConfig]
      ++ (if arch.any entryForbidden = false ∧ io = false
          then [Step.expandArchive] else []) := by
  unfold submission_backup unzip_safely
  cases h : arch.any entryForbidden <;> cases h2 : io <;>
    cases hb : d.dirMade <;> simp [h, h2, hb]

lemma submission_backup_expanded_eq (d : BackupDir) (arch : List ZipEntry)
    (cfg : SbConfig) (io : Bool) :
    (submission_backup d arch cfg io).dir.expanded
    = (if arch.any entryForbidden = false ∧ io = false
       then some arch else d.expanded) := by
  unfold submission_backup unzip_safely
  cases h : arch.any entryForbidden <;> cases h2 : io <;>
    cases hb : d.dirMade <;> simp [h, h2, hb]

lemma save_error_eq (arch : List ZipEntry) (u a c t : String)
    (env : CourseEnv) (w : World) :
    (save_submission_in_storer arch u a c t env w).error
    = (if arch.any entryForbidden then some PyError.rejectedArchive
       else if w.histExpandFails then some PyError.ioError
       else if w.canonExpandFails then some PyError.ioError else none) := by
  simp only [save_submission_in_storer, submission_backup_error_eq]
  cases h : arch.any entryForbidden <;> cases h1 : w.histExpandFails <;>
    cases h2 : w.canonExpandFails <;> simp [h, h1, h2]

lemma save_steps_no_bundle (arch : List ZipEntry) (u a c t : String)
    (env : CourseEnv) (w : World) :
    Step.createBundle ∉ (save_submission_in_storer arch u a c t env w).steps
    ∧ Step.sshBundle ∉ (save_submission_in_storer arch u a c t env w).steps := by
  simp only [save_submission_in_storer, submission_backup_error_eq,
             submission_backup_steps_eq, submission_git_commit, freshDir]
  cases h : arch.any entryForbidden <;> cases h1 : w.histExpandFails <;>
    cases h2 : w.canonExpandFails <;> cases h3 : w.canonExisted <;>
    simp [h, h1, h2, h3]

/-! Claim theorems. -/

/-- C10: if a canonical submission record exists for (assignment, user)
but its recorded upload time cannot be read (get_upload_time returns
none), submitted_too_soon returns false, so such a user is always
admitted by the rate limiter regardless of how recently they last
submitted. -/
theorem submitted_too_soon_unreadable_time_is_false :
    ∀ (minInterval now : Int),
      submitted_too_soon { found := true, uploadTime := none } minInterval now
        = false := by
  intro minInterval now
  simp [submitted_too_soon]

/-- C6: submitted_too_soon returns false whenever no prior canonical
submission exists; otherwise, with a readable last upload time, it
returns true iff last_upload_time + min_interval - now is positive; in
particular at now exactly last_upload_time + min_interval it returns
false, and a full submit made exactly min_interval after the previous
upload passes the rate-limit check and succeeds. -/
theorem submitted_too_soon_rate_spec :
    ∀ (ut : Option Int) (mi now t : Int),
      submitted_too_soon { found := false, uploadTime := ut } mi now = false
      ∧ (submitted_too_soon { found := true, uploadTime := some t } mi now
           = true ↔ t + mi - now > 0)
      ∧ submitted_too_soon { found := true, uploadTime := some t } mi (t + mi)
          = false
      ∧ (submit [] "a1" "u1" "so" false none 160 0 1000
           { found := true, uploadTime := some 100 } 60 env0 okWorld).error
          = none := by
  intro ut mi now t
  refine ⟨by simp [submitted_too_soon], by simp [submitted_too_soon], ?_, by decide⟩
  simp [submitted_too_soon]

/-- C6 witness: the rate-limit theorem applied at a concrete input with
a prior upload at time 10, interval 60 and now 30, where the second
submission is too soon. -/
theorem submitted_too_soon_rate_spec_witness :
    submitted_too_soon { found := true, uploadTime := some 10 } 60 30 = true :=
  ((submitted_too_soon_rate_spec none 60 30 10).2.1).mpr (by decide)

/-- C3 fails on the code: when ziputil.create_zip raises during bundle
assembly, create_testing_bundle only logs and re-raises; the bundle
file created by mkstemp is never removed (the source comment claims a
cleanup that no statement performs), so a partially written bundle file
remains on disk. -/
theorem create_testing_bundle_leaves_file_on_failure :
    create_testing_bundle env0 true
      = { entries := [], fileCreated := true, fileRemoved := false,
          error := some PyError.ioError }
    ∧ (create_testing_bundle env0 true).fileCreated = true
    ∧ (create_testing_bundle env0 true).fileRemoved = false := by
  exact ⟨rfl, rfl, rfl⟩

/-- C5 fails on the code: _process_job never hands the workspace to any
commander (no commander invocation exists in queue_manager.py), and the
workspace removal is not unconditional: when unzip fails,
subprocess.check_call raises and shutil.rmtree is never reached, so the
ephemeral workspace is leaked. -/
theorem process_job_no_commander_and_leaky_cleanup :
    process_job true
      = { workspaceCreated := true, extracted := false,
          commanderInvoked := false, workspaceRemoved := false,
          error := some PyError.calledProcessError }
    ∧ process_job false
      = { workspaceCreated := true, extracted := true,
          commanderInvoked := false, workspaceRemoved := true,
          error := none } := by
  exact ⟨rfl, rfl⟩

/-- C2 fails on the code: both the admission-window rejection and the
rate-limit rejection are raised as the one exception class
SubmitedTooSoonError (whose own docstring describes only the rate-limit
case); the caller cannot distinguish the two cases by exception kind,
only by the message payload.  Evaluated here at an upload time after
the window (window message, same constructor) and at a rate-limited
resubmission (wait message, same constructor). -/
theorem submit_rejections_share_exception_class :
    (submit [] "a1" "u1" "so" false none 100 0 10
        { found := false, uploadTime := none } 60 env0 okWorld).error
      = some (PyError.submitedTooSoonError (SubmitMsg.windowMsg 0 10))
    ∧ (submit [] "a1" "u1" "so" false none 5 0 10
        { found := true, uploadTime := some 4 } 60 env0 okWorld).error
      = some (PyError.submitedTooSoonError (SubmitMsg.rateMsg 60)) := by
  exact ⟨by decide, by decide⟩

/-- C9: every bundle built by create_testing_bundle contains exactly
the six named entries build.sh, run.sh, archive.zip, tests.zip,
submission-config and course-config; the descriptor that
save_submission_in_storer writes (with the user, assignment, course and
upload time submit passed it) decodes back to exactly those four
values. -/
theorem bundle_entries_and_config_roundtrip :
    ∀ (env : CourseEnv) (u a c t : String) (arch : List ZipEntry) (w : World),
      (create_testing_bundle env false).entries
        = ["build.sh", "run.sh", "archive.zip", "tests.zip",
           "submission-config", "course-config"]
      ∧ (save_submission_in_storer arch u a c t env w).historical.submissionConfig
          = some (submission_config u a c t env.resultsDest env.remoteUsername
                    env.remoteHostname)
      ∧ cfg_get (submission_config u a c t env.resultsDest env.remoteUsername
                   env.remoteHostname) "Assignment" "User" = some u
      ∧ cfg_get (submission_config u a c t env.resultsDest env.remoteUsername
                   env.remoteHostname) "Assignment" "Assignment" = some a
      ∧ cfg_get (submission_config u a c t env.resultsDest env.remoteUsername
                   env.remoteHostname) "Assignment" "CourseID" = some c
      ∧ cfg_get (submission_config u a c t env.resultsDest env.remoteUsername
                   env.remoteHostname) "Assignment" "UploadTime" = some t := by
  intro env u a c t arch w
  refine ⟨rfl, ?_, rfl, rfl, rfl, rfl⟩
  unfold save_submission_in_storer
  rcases he : (submission_backup freshDir arch
      (submission_config u a c t env.resultsDest env.remoteUsername
        env.remoteHostname) w.histExpandFails).error with _ | e
  · simp only []
    rcases he2 : (submission_backup freshDir arch
        (submission_config u a c t env.resultsDest env.remoteUsername
          env.remoteHostname) w.canonExpandFails).error with _ | e2 <;>
      simp [he, he2, (submission_backup_dir_fields freshDir arch _ _).2]
  · simp [he, (submission_backup_dir_fields freshDir arch _ _).2]

/-- C1: an archive containing an entry with an absolute path or a
parent-directory traversal segment makes submission_backup raise the
archive rejection (named UnsafeArchiveRejected in the spec) and write nothing
into the expansion compartment, so no archive entry is written outside
the backup directory. -/
theorem submission_backup_rejects_traversal :
    ∀ (d : BackupDir) (arch : List ZipEntry) (cfg : SbConfig) (ioFails : Bool),
      arch.any entryForbidden = true →
      (submission_backup d arch cfg ioFails).error
          = some PyError.rejectedArchive
      ∧ (submission_backup d arch cfg ioFails).dir.expanded = d.expanded
      ∧ Step.expandArchive ∉ (submission_backup d arch cfg ioFails).steps := by
  intro d arch cfg io h
  refine ⟨?_, ?_, ?_⟩
  · rw [submission_backup_error_eq]
    simp [h]
  · rw [submission_backup_expanded_eq]
    simp [h]
  · rw [submission_backup_steps_eq]
    cases hb : d.dirMade <;> simp [h, hb]

/-- C1 witness: a concrete archive whose single entry has a
parent-directory traversal segment is rejected, with the expansion
compartment left empty. -/
theorem submission_backup_rejects_traversal_witness :
    (submission_backup freshDir [{ absolute := false, segments := ["..", "x"] }]
        [] false).error = some PyError.rejectedArchive
    ∧ (submission_backup freshDir [{ absolute := false, segments := ["..", "x"] }]
        [] false).dir.expanded = none
    ∧ Step.expandArchive ∉ (submission_backup freshDir
        [{ absolute := false, segments := ["..", "x"] }] [] false).steps := by
  have h := submission_backup_rejects_traversal freshDir
      [{ absolute := false, segments := ["..", "x"] }] [] false (by decide)
  exact ⟨h.1, h.2.1, h.2.2⟩

/-- C8: within one backup write, the raw archive is copied first and
the descriptor written second, both before any expansion is attempted
(the step trace is exactly mkdirs-if-needed, copy, write-config, then
expansion only on success), and on any failure the backup directory
still holds the complete archive copy and descriptor while the
expansion compartment is untouched. -/
theorem submission_backup_durable_order :
    ∀ (d : BackupDir) (arch : List ZipEntry) (cfg : SbConfig) (ioFails : Bool),
      (submission_backup d arch cfg ioFails).dir.archiveZip = some arch
      ∧ (submission_backup d arch cfg ioFails).dir.submissionConfig = some cfg
      ∧ (submission_backup d arch cfg ioFails).steps
          = (if d.dirMade then [] else [Step.mkdirs])
            ++ [Step.copyArchive, Step.writeConfig]
            ++ (if (submission_backup d arch cfg ioFails).error = none
                then [Step.expandArchive] else [])
      ∧ (submission_backup d arch cfg ioFails).dir.expanded
          = (if (submission_backup d arch cfg ioFails).error = none
             then some arch else d.expanded) := by
  intro d arch cfg io
  have h1 := submission_backup_dir_fields d arch cfg io
  refine ⟨h1.1, h1.2, ?_, ?_⟩
  · rw [submission_backup_steps_eq, submission_backup_error_eq]
    cases h : arch.any entryForbidden <;> cases h2 : io <;> simp [h, h2]
  · rw [submission_backup_expanded_eq, submission_backup_error_eq]
    cases h : arch.any entryForbidden <;> cases h2 : io <;> simp [h, h2]

lemma submit_error_eq (arch : List ZipEntry) (asg u c : String) (skip : Bool)
    (forced : Option Int) (sysTime aStart aStop : Int) (db : SubmissionsDb)
    (mi : Int) (env : CourseEnv) (w : World) :
    (submit arch asg u c skip forced sysTime aStart aStop db mi env w).error
    = (if (forced.getD sysTime) < aStart ∨ (forced.getD sysTime) > aStop
       then some (PyError.submitedTooSoonError (SubmitMsg.windowMsg aStart aStop))
       else if forced = none ∧ skip = false
               ∧ submitted_too_soon db mi sysTime = true
       then some (PyError.submitedTooSoonError (SubmitMsg.rateMsg mi))
       else if arch.any entryForbidden = true then some PyError.rejectedArchive
       else if w.histExpandFails = true then some PyError.ioError
       else if w.canonExpandFails = true then some PyError.ioError
       else if w.createZipFails = true then some PyError.ioError
       else if w.sshFails = true then some PyError.ioError
       else none) := by
  rcases forced with _ | ft <;>
    simp only [submit, Option.getD, queue_for_testing, create_testing_bundle,
               ssh_bundle, save_error_eq] <;>
    cases hAny : arch.any entryForbidden <;>
    cases hH : w.histExpandFails <;> cases hC : w.canonExpandFails <;>
    cases hZ : w.createZipFails <;> cases hS : w.sshFails <;>
    cases hSk : skip <;> cases hT : submitted_too_soon db mi sysTime <;>
    simp [hAny, hH, hC, hZ, hS, hSk, hT, apply_ite SubmitResult.error]

lemma submit_steps_eq (arch : List ZipEntry) (asg u c : String) (skip : Bool)
    (forced : Option Int) (sysTime aStart aStop : Int) (db : SubmissionsDb)
    (mi : Int) (env : CourseEnv) (w : World) :
    (submit arch asg u c skip forced sysTime aStart aStop db mi env w).steps
    = (if (forced.getD sysTime) < aStart ∨ (forced.getD sysTime) > aStop
       then []
       else if forced = none ∧ skip = false
               ∧ submitted_too_soon db mi sysTime = true
       then []
       else
         (save_submission_in_storer arch u asg c
            (toString (forced.getD sysTime)) env w).steps
         ++ (if (save_submission_in_storer arch u asg c
                  (toString (forced.getD sysTime)) env w).error = none
             then (if w.createZipFails then [Step.createBundle]
                   else [Step.createBundle, Step.sshBundle])
             else [])) := by
  rcases forced with _ | ft <;>
    simp only [submit, Option.getD, queue_for_testing, create_testing_bundle,
               ssh_bundle] <;>
    cases hAny : arch.any entryForbidden <;>
    cases hH : w.histExpandFails <;> cases hC : w.canonExpandFails <;>
    cases hZ : w.createZipFails <;> cases hS : w.sshFails <;>
    cases hSk : skip <;> cases hT : submitted_too_soon db mi sysTime <;>
    simp [save_error_eq, hAny, hH, hC, hZ, hS, hSk, hT,
          apply_ite SubmitResult.steps]

/-- C7: the admission window check admits a submission iff
active_start <= upload_time <= active_stop, both bounds inclusive:
submit raises the window rejection exactly when the effective upload
time (the system time, or the forced upload time when one is given) is
strictly outside the interval, so at the exact boundary values the
window check passes. -/
theorem submit_window_inclusive_iff :
    ∀ (arch : List ZipEntry) (asg u c : String) (skip : Bool)
      (sysTime ft aStart aStop : Int) (db : SubmissionsDb) (mi : Int)
      (env : CourseEnv) (w : World),
      ((submit arch asg u c skip none sysTime aStart aStop db mi env w).error
          = some (PyError.submitedTooSoonError (SubmitMsg.windowMsg aStart aStop))
        ↔ (sysTime < aStart ∨ sysTime > aStop))
      ∧ ((submit arch asg u c skip (some ft) sysTime aStart aStop db mi env w).error
          = some (PyError.submitedTooSoonError (SubmitMsg.windowMsg aStart aStop))
        ↔ (ft < aStart ∨ ft > aStop)) := by
  intro arch asg u c skip sysTime ft aStart aStop db mi env w
  constructor <;>
  · rw [submit_error_eq]
    split_ifs <;> simp_all

/-- C7 witness: at an upload time after the window the rejection is the
window message, and at the exact upper boundary it is not. -/
theorem submit_window_inclusive_iff_witness :
    (submit [] "a1" "u1" "so" true none 20 0 10
        { found := false, uploadTime := none } 60 env0 okWorld).error
      = some (PyError.submitedTooSoonError (SubmitMsg.windowMsg 0 10))
    ∧ ¬ (submit [] "a1" "u1" "so" true none 10 0 10
        { found := false, uploadTime := none } 60 env0 okWorld).error
      = some (PyError.submitedTooSoonError (SubmitMsg.windowMsg 0 10)) := by
  constructor
  · exact ((submit_window_inclusive_iff [] "a1" "u1" "so" true 20 99 0 10
      { found := false, uploadTime := none } 60 env0 okWorld).1).mpr
      (Or.inr (by decide))
  · intro h
    have := ((submit_window_inclusive_iff [] "a1" "u1" "so" true 10 99 0 10
      { found := false, uploadTime := none } 60 env0 okWorld).1).mp h
    omega

/-- C4 fails on the code as stated: submission_git_commit discards the
wait() return codes of both git subprocesses, so a failed git commit
(nonzero exit status) raises nothing and the pipeline still builds and
dispatches the bundle.  Concretely, with the commit exiting 1, submit
completes with no error and its trace contains the commit with exit
code 1, the bundle build and the ssh dispatch. -/
theorem submit_continues_after_commit_failure :
    (submit [{ absolute := false, segments := ["main.c"] }] "a1" "u1" "so"
        false none 5 0 10 { found := false, uploadTime := none } 60 env0
        { histExpandFails := false, canonExpandFails := false,
          canonExisted := false, gitAddCode := 0, gitCommitCode := 1,
          createZipFails := false, sshFails := false }).error = none
    ∧ Step.gitCommit 1 ∈ (submit [{ absolute := false, segments := ["main.c"] }]
        "a1" "u1" "so" false none 5 0 10 { found := false, uploadTime := none }
        60 env0
        { histExpandFails := false, canonExpandFails := false,
          canonExisted := false, gitAddCode := 0, gitCommitCode := 1,
          createZipFails := false, sshFails := false }).steps
    ∧ Step.createBundle ∈ (submit [{ absolute := false, segments := ["main.c"] }]
        "a1" "u1" "so" false none 5 0 10 { found := false, uploadTime := none }
        60 env0
        { histExpandFails := false, canonExpandFails := false,
          canonExisted := false, gitAddCode := 0, gitCommitCode := 1,
          createZipFails := false, sshFails := false }).steps
    ∧ Step.sshBundle ∈ (submit [{ absolute := false, segments := ["main.c"] }]
        "a1" "u1" "so" false none 5 0 10 { found := false, uploadTime := none }
        60 env0
        { histExpandFails := false, canonExpandFails := false,
          canonExisted := false, gitAddCode := 0, gitCommitCode := 1,
          createZipFails := false, sshFails := false }).steps := by
  refine ⟨by decide, by decide, by decide, by decide⟩

/-- C4 amended: an I/O failure raised while writing either backup (or
the archive rejection) stops the pipeline before create_testing_bundle
and ssh_bundle are invoked; a version-control commit failure, however,
is discarded by submission_git_commit (the wait() return codes are
ignored), so the commit exit code never changes the outcome of submit. -/
theorem submit_backup_failure_stops_pipeline :
    ∀ (arch : List ZipEntry) (asg u c : String) (skip : Bool)
      (forced : Option Int) (sysTime aStart aStop : Int) (db : SubmissionsDb)
      (mi : Int) (env : CourseEnv) (w : World) (k k' : Int),
      ((Step.createBundle
            ∈ (submit arch asg u c skip forced sysTime aStart aStop db mi env w).steps
         ∨ Step.sshBundle
            ∈ (submit arch asg u c skip forced sysTime aStart aStop db mi env w).steps) →
        (arch.any entryForbidden = false ∧ w.histExpandFails = false
         ∧ w.canonExpandFails = false))
      ∧ (submit arch asg u c skip forced sysTime aStart aStop db mi env
           { w with gitCommitCode := k }).error
        = (submit arch asg u c skip forced sysTime aStart aStop db mi env
           { w with gitCommitCode := k' }).error := by
  intro arch asg u c skip forced sysTime aStart aStop db mi env w k k'
  constructor
  · intro hmem
    have hsave : (save_submission_in_storer arch u asg c
        (toString (forced.getD sysTime)) env w).error = none := by
      rcases hmem with h | h <;>
      · rw [submit_steps_eq] at h
        split_ifs at h with h1 h2 h3 h4 <;>
          first
            | assumption
            | exact absurd h (List.not_mem_nil _)
            | (exfalso
               rw [List.append_nil] at h
               rcases save_steps_no_bundle arch u asg c
                   (toString (forced.getD sysTime)) env w with ⟨hc, hs⟩
               first
                 | exact hc h
                 | exact hs h)
    rw [save_error_eq] at hsave
    split_ifs at hsave with g1 g2 g3 <;> simp_all
  · rw [submit_error_eq, submit_error_eq]

/-- C4 amended witness: at a concrete input where the bundle is built,
the theorem yields that no backup failure occurred. -/
theorem submit_backup_failure_stops_pipeline_witness :
    ([] : List ZipEntry).any entryForbidden = false
    ∧ okWorld.histExpandFails = false ∧ okWorld.canonExpandFails = false :=
  (submit_backup_failure_stops_pipeline [] "a1" "u1" "so" false none 5 0 10
      { found := false, uploadTime := none } 60 env0 okWorld 0 0).1
    (Or.inl (by decide))

end Vmchecker
